import Mathlib

/-!
A shallow embedding of the quote-bot core (`main.py`) and proofs about its
message ledger, posting cycle, save-toggle handler, schedule registry and
quote-source adapter.

Modelling conventions:
* Python dicts keyed by chat id become functions `Int → Option α`
  (`updateMap` is dict assignment, `eraseMap` is `pop`).
* The APScheduler job store becomes a `List Job`; `add_job` with
  `replace_existing=True` removes any job with the same id before appending,
  `remove_job` fails (raises `JobLookupError`) when the id is absent.
* Exceptions are encoded explicitly: handler results carry a `raised`
  alternative, and the network layer is an input (`FetchOutcome`,
  `SendOutcome`) describing what the external service did.
* `random.choice` over a non-empty list is modelled by an arbitrary index
  (`choice % data.length`): the statement quantifies over all indices, which
  captures that every element of the collection is selectable.
* String literals are taken byte-for-byte from the source file, which on disk
  contains double-encoded (mojibake) UTF-8 for the emoji and the dash (e.g.
  the dash in the quote format is the three characters U+00E2 U+20AC U+201C,
  not the en dash U+2013 that appears in `test_api.py`).
-/

namespace QBot

/-- Dict assignment `d[k] = v`. -/
def updateMap {κ α : Type} [DecidableEq κ] (m : κ → Option α) (k : κ) (v : α) :
    κ → Option α :=
  fun q => if q = k then some v else m q

/-- Dict removal, e.g. `d.pop(k, None)`. -/
def eraseMap {κ α : Type} [DecidableEq κ] (m : κ → Option α) (k : κ) :
    κ → Option α :=
  fun q => if q = k then none else m q

/-- The empty dict. -/
def emptyMap {κ α : Type} : κ → Option α := fun _ => none

/-- Characters removed by Python `str.strip()`: CPython's Unicode whitespace
set (U+0009..U+000D, U+001C..U+001F, space, U+0085, U+00A0, U+1680,
U+2000..U+200A, U+2028, U+2029, U+202F, U+205F, U+3000). -/
def isPySpace (c : Char) : Bool :=
  let n := c.toNat
  (9 ≤ n && n ≤ 13) || (28 ≤ n && n ≤ 31) || n == 32 || n == 0x85 ||
  n == 0xA0 || n == 0x1680 || (0x2000 ≤ n && n ≤ 0x200A) ||
  n == 0x2028 || n == 0x2029 || n == 0x202F || n == 0x205F || n == 0x3000

/-- Python `str.strip()`: drop leading and trailing whitespace. -/
def pyStrip (s : String) : String :=
  ⟨((s.data.dropWhile isPySpace).reverse.dropWhile isPySpace).reverse⟩

/-- Python `str.split(sep)` for a one-character separator, on char lists:
splits at every occurrence, keeping empty fields. -/
def splitChars (sep : Char) : List Char → List (List Char)
  | [] => [[]]
  | c :: cs =>
      let rest := splitChars sep cs
      if c = sep then [] :: rest
      else
        match rest with
        | r :: rs => (c :: r) :: rs
        | [] => [[c]]

/-- Python `str.split(sep)` for a one-character separator. -/
def pySplit (s : String) (sep : Char) : List String :=
  (splitChars sep s.data).map (fun l => ⟨l⟩)

/-- Python `str.lower()` on one character, exact for every character whose
lowercase is a single ASCII letter: the letters A-Z and the Kelvin sign
U+212A (which Python lowercases to `k`). Every other character lowercases to
a non-ASCII result (or to itself), so keeping it unchanged preserves every
comparison this program makes against its ASCII keywords and weekday
names. -/
def pyLowerChar (c : Char) : Char :=
  if 'A' ≤ c ∧ c ≤ 'Z' then Char.ofNat (c.toNat + 32)
  else if c = '\u212A' then 'k'
  else c

/-- Python `str.lower()` (see `pyLowerChar` for the modelled mapping). -/
def pyLower (s : String) : String := ⟨s.data.map pyLowerChar⟩

/-- Decimal value of a digit string. -/
def digitsToNat (l : List Char) : Nat :=
  l.foldl (fun acc c => acc * 10 + (c.toNat - 48)) 0

/-- After the leading digit of an integer literal: digits, with single
underscores allowed only between digits (`1_2` is accepted, `1__2` and a
trailing `_` are not), as Python's `int()` grammar has it. -/
def digitsUnderscoreTail : List Char → Bool
  | [] => true
  | '_' :: c :: rest => c.isDigit && digitsUnderscoreTail rest
  | ['_'] => false
  | c :: rest => c.isDigit && digitsUnderscoreTail rest

/-- A non-empty digit sequence with optional single underscores between
digits. -/
def digitsUnderscoreValid : List Char → Bool
  | [] => false
  | c :: rest => c.isDigit && digitsUnderscoreTail rest

/-- Python `int(s)`: optional surrounding whitespace, optional sign, then
digits with single underscores permitted between digits (`int("1_2") = 12`);
`none` models the `ValueError` raised otherwise. Digits are modelled as
ASCII `0-9`. -/
def pyInt (text : String) : Option Int :=
  let t := (pyStrip text).data
  let core : Int × List Char :=
    match t with
    | '-' :: rest => (-1, rest)
    | '+' :: rest => (1, rest)
    | _ => (1, t)
  if digitsUnderscoreValid core.2 then
    some (core.1 * Int.ofNat (digitsToNat (core.2.filter (fun c => c ≠ '_'))))
  else none

/-! ## Message Ledger (`last_message_info`) -/

/-- One entry of `last_message_info`: `{"message_id": ..., "has_reaction": ...}`.
`has_reaction` is the saved flag. -/
structure ActiveMessage where
  message_id : Nat
  has_reaction : Bool
deriving DecidableEq, Repr

/-- The cleanup performed on the previous quote message before a new one is
sent: delete it, strip its button (`remove_buttons_from_previous`), or
nothing when no record exists. -/
inductive CleanupAction where
  | deleteMsg (message_id : Nat)
  | stripButton (message_id : Nat)
  | noop
deriving DecidableEq, Repr

/-- The cleanup decision in `send_scheduled_quote` / `new_quote`:
`if not last_info.get("has_reaction"): delete ... else: remove buttons`. -/
def cleanup_action (last_info : Option ActiveMessage) : CleanupAction :=
  match last_info with
  | none => .noop
  | some info =>
      if info.has_reaction then .stripButton info.message_id
      else .deleteMsg info.message_id

/-! ## Configuration constants -/

/-- `GROUP_CHAT_ID`: the designated group chat (the source's default value). -/
def GROUP_CHAT_ID : Int := -1001571487413

/-- `ALLOWED_USER_IDS`: the allow-list of users permitted to toggle saves. -/
def ALLOWED_USER_IDS : List Int := [1861017597]

/-! ## Scheduler (APScheduler job store and cron triggers) -/

/-- A cron trigger as built by the source: `CronTrigger(day_of_week=..., day=...,
hour=..., minute=...)`, with absent keyword arguments as `none`. -/
structure CronTrigger where
  day_of_week : Option String := none
  day : Option Int := none
  hour : Int
  minute : Int
deriving DecidableEq, Repr

/-- The weekday abbreviations APScheduler's `day_of_week` field knows. -/
def WEEKDAYS : List String := ["mon", "tue", "wed", "thu", "fri", "sat", "sun"]

/-- A non-empty ASCII digit sequence (APScheduler parses field numbers with
a digit regex and `int()`; digits are modelled as ASCII `0-9`). -/
def isDigitList (l : List Char) : Bool := !l.isEmpty && l.all (fun c => c.isDigit)

/-- Index of a weekday name in `WEEKDAYS` (for range-order validation). -/
def weekdayIdx (s : String) : Nat := WEEKDAYS.indexOf s

/-- The base (step-less) part of one `day_of_week` atom, per APScheduler's
expression classes: `*` (AllExpression); a number or number range within
0..6 in increasing order (RangeExpression plus its bounds validation); or,
when no step suffix follows, a weekday name or name range in increasing
order (WeekdayRangeExpression). -/
def dowBaseValid (base : String) (allowNames : Bool) : Bool :=
  if base = "*" then true
  else
    match pySplit base '-' with
    | [x] =>
        (isDigitList x.data && digitsToNat x.data ≤ 6)
        || (allowNames && WEEKDAYS.contains x)
    | [x, y] =>
        (isDigitList x.data && isDigitList y.data
          && digitsToNat x.data ≤ 6 && digitsToNat y.data ≤ 6
          && digitsToNat x.data ≤ digitsToNat y.data)
        || (allowNames && WEEKDAYS.contains x && WEEKDAYS.contains y
            && weekdayIdx x ≤ weekdayIdx y)
    | _ => false

/-- One `day_of_week` atom: a base expression with an optional positive
`/step` suffix (only `*` and numeric ranges take a step; a step of 0 raises,
as `AllExpression.__init__` checks). -/
def dowAtomValid (a : String) : Bool :=
  match pySplit a '/' with
  | [base] => dowBaseValid base true
  | [base, step] =>
      dowBaseValid base false && isDigitList step.data && digitsToNat step.data ≥ 1
  | _ => false

/-- Validity of a comma-separated `day_of_week` expression, as
`CronTrigger(day_of_week=...)` accepts it. -/
def dowValid (d : String) : Bool :=
  (pySplit d ',').all dowAtomValid

/-- `CronTrigger(hour=h, minute=m)`; raises `ValueError` out of range. -/
def mkCronDaily (hour minute : Int) : Except Unit CronTrigger :=
  if 0 ≤ hour ∧ hour < 24 ∧ 0 ≤ minute ∧ minute < 60 then
    .ok { hour := hour, minute := minute }
  else .error ()

/-- `CronTrigger(day_of_week=d, hour=h, minute=m)`; raises `ValueError` on an
unparseable weekday expression or out-of-range time. -/
def mkCronDow (d : String) (hour minute : Int) : Except Unit CronTrigger :=
  if dowValid d ∧ 0 ≤ hour ∧ hour < 24 ∧ 0 ≤ minute ∧ minute < 60 then
    .ok { day_of_week := some d, hour := hour, minute := minute }
  else .error ()

/-- `CronTrigger(day=d, hour=h, minute=m)`; raises `ValueError` when the
day of month is outside 1..31 or the time is out of range. -/
def mkCronDay (day hour minute : Int) : Except Unit CronTrigger :=
  if 1 ≤ day ∧ day ≤ 31 ∧ 0 ≤ hour ∧ hour < 24 ∧ 0 ≤ minute ∧ minute < 60 then
    .ok { day := some day, hour := hour, minute := minute }
  else .error ()

/-- One registered job in the scheduler's store. The source always registers
`send_scheduled_quote` with `args=[chat_id]` and `id=str(chat_id)`; `chat`
records the argument and `id` the job id. -/
structure Job where
  id : String
  chat : Int
  trigger : CronTrigger
deriving DecidableEq, Repr

/-- `scheduler.add_job(..., id=jid, replace_existing=True)`: any job with the
same id is replaced. -/
def add_job_replace (jobs : List Job) (j : Job) : List Job :=
  jobs.filter (fun x => x.id ≠ j.id) ++ [j]

/-- `scheduler.remove_job(jid)`: removes the job with that id, raising
`JobLookupError` (the `error` alternative) when it does not exist. -/
def remove_job (jobs : List Job) (jid : String) : Except Unit (List Job) :=
  if jobs.any (fun j => j.id = jid) then
    .ok (jobs.filter (fun j => j.id ≠ jid))
  else .error ()

/-- One entry of `schedule_settings`: `{'trigger': ..., 'desc': ...}`. -/
structure ScheduleEntry where
  trigger : CronTrigger
  desc : String
deriving DecidableEq, Repr

/-! ## Per-user conversation data (`context.user_data`) -/

/-- The keys the schedule dialog stores in `context.user_data`. A `none`
field models the key being absent (reading it raises `KeyError`). -/
structure DialogData where
  schedule_time : Option (Int × Int) := none
  schedule_freq : Option String := none
  schedule_days : Option (List String) := none
deriving DecidableEq, Repr

/-! ## The whole in-memory state -/

/-- All module-level mutable state of `main.py` (plus the conversation
bookkeeping that `python-telegram-bot` keeps for the `/schedule` dialog). -/
structure BotState where
  last_message_info : Int → Option ActiveMessage
  user_sessions : Int → Option Bool
  schedule_settings : Int → Option ScheduleEntry
  jobs : List Job
  conv_state : Int → Option Nat
  user_data : Int → DialogData

/-- The state at process start: every dict empty, no jobs, no dialog. -/
def initState : BotState :=
  { last_message_info := emptyMap
    user_sessions := emptyMap
    schedule_settings := emptyMap
    jobs := []
    conv_state := emptyMap
    user_data := fun _ => {} }

/-! ## Quote Source Adapter (`fetch_quote`) -/

/-- One element of the quotes endpoint's JSON array. `quote` and the nested
`philosopher.id` may be absent; the source reads them with
`.get("quote", "")` and `.get("philosopher", {}).get("id", "")`. -/
structure QuoteItem where
  quote : Option String
  philosopherId : Option String
deriving DecidableEq, Repr

/-- What the external quotes request did: raised an exception (network or
JSON-parsing failure), or returned a response with a status code and, when
the body was parsed, a list of quote items. -/
inductive FetchOutcome where
  | exn
  | resp (status : Nat) (data : List QuoteItem)
deriving DecidableEq, Repr

/-- `fetch_quote`, with the philosopher-name cache, the external outcome and
the random index (`random.choice` modelled as `choice % data.length`) as
inputs. Total: every exception path returns a fallback string, so the
adapter never raises past its boundary. -/
def fetch_quote (cache : String → Option String) (outcome : FetchOutcome)
    (choice : Nat) : String :=
  match outcome with
  | .exn => "_Failed to retrieve quote._"
  | .resp status data =>
      if status = 200 then
        if data.isEmpty then "_No quotes found._"
        else
          let quote_data := data.getD (choice % data.length) ⟨none, none⟩
          let quote := pyStrip (quote_data.quote.getD "")
          let philosopher_id := quote_data.philosopherId.getD ""
          let name := (cache philosopher_id).getD "Unknown"
          "_\"" ++ quote ++ "\"_\n\n*â€“" ++ name ++ "*"
      else "_Quote service unavailable._"

/-! ## `/start` and `/stop` -/

/-- The `/start` handler: replies only, touches no state. -/
def start (s : BotState) (chat : Int) : BotState × String :=
  if chat ≠ GROUP_CHAT_ID then (s, "Use this bot in the designated group.")
  else (s, "Quote bot activated! Use /schedule to set up automatic quotes, or /new for a manual quote.")

/-- The `/stop` handler: `if user_sessions.pop(chat_id, None): ...`.
`pop` removes the entry when present; the reply depends on the truthiness of
the popped value. -/
def stop (s : BotState) (chat : Int) : BotState × String :=
  match s.user_sessions chat with
  | some v =>
      ({ s with user_sessions := eraseMap s.user_sessions chat },
       if v then "Quote bot stopped." else "Bot is not running.")
  | none => (s, "Bot is not running.")

/-! ## Posting cycle -/

/-- What the platform `send_message` call did: succeeded with a new message
id, or raised. -/
inductive SendOutcome where
  | ok (message_id : Nat)
  | failed
deriving DecidableEq, Repr

/-- `send_scheduled_quote(chat_id)`: decide the cleanup of the previous
message from its saved flag, then send the new quote; only on a successful
send is `last_message_info[chat_id]` overwritten with the new id and
`has_reaction: False`. Delete/strip failures are logged and swallowed, so
only the chosen `CleanupAction` is observable. -/
def send_scheduled_quote (s : BotState) (chat : Int) (send : SendOutcome) :
    BotState × CleanupAction :=
  let act := cleanup_action (s.last_message_info chat)
  match send with
  | .ok message_id =>
      ({ s with last_message_info :=
          updateMap s.last_message_info chat ⟨message_id, false⟩ }, act)
  | .failed => (s, act)

/-- `new_quote` (the `/new` command): guarded by the designated group chat,
then the same cleanup/send/record iteration as `send_scheduled_quote`.
`none` means the guard rejected the chat and no iteration ran. -/
def new_quote (s : BotState) (chat : Int) (send : SendOutcome) :
    BotState × Option CleanupAction :=
  if chat ≠ GROUP_CHAT_ID then (s, none)
  else
    let act := cleanup_action (s.last_message_info chat)
    match send with
    | .ok message_id =>
        ({ s with last_message_info :=
            updateMap s.last_message_info chat ⟨message_id, false⟩ }, some act)
    | .failed => (s, some act)

/-! ## Save-Toggle Handler (`handle_heart_reaction`) -/

/-- The button labels and notices, byte-for-byte as in the source (the file
holds mojibake where the emoji were intended). -/
def save_label : String := "â¤ï¸ SAVE"

/-- The label shown once a quote is saved (names the next action). -/
def unsave_label : String := "ðŸ–¤ UNSAVE"

/-- Confirmation notice after saving. -/
def saved_notice : String := "â¤ï¸ Saved!"

/-- Confirmation notice after unsaving. -/
def removed_notice : String := "ðŸ–¤ Removed!"

/-- The visible result of a button press. -/
inductive PressOutcome where
  | denied (notice : String)
  | toggled (new_state : Bool) (new_label : String) (notice : String)
deriving DecidableEq, Repr

/-- `handle_heart_reaction`: allow-list check, then flip the chat record's
`has_reaction`, record the pressed message id, and emit the new label and the
confirmation notice. -/
def handle_heart_reaction (s : BotState) (user_id chat_id : Int)
    (msg_id : Nat) : BotState × PressOutcome :=
  if user_id ∈ ALLOWED_USER_IDS then
    let current := ((s.last_message_info chat_id).map
      (fun i => i.has_reaction)).getD false
    let new_label := if current then save_label else unsave_label
    let new_state := !current
    ({ s with last_message_info :=
        updateMap s.last_message_info chat_id ⟨msg_id, new_state⟩ },
     .toggled new_state new_label
       (if current then removed_notice else saved_notice))
  else (s, .denied "Permission denied.")

/-! ## Schedule dialog (`ConversationHandler`) -/

/-- What a conversation callback returned: a next state number,
`ConversationHandler.END`, or an exception that escaped the callback (in
which case `python-telegram-bot` keeps the previous conversation state). -/
inductive ConvResult where
  | state (n : Nat)
  | end_conv
  | raised
deriving DecidableEq, Repr

/-- Python `f"{n:02d}"` for the values used here. -/
def fmt2 (n : Int) : String :=
  if 0 ≤ n ∧ n < 10 then "0" ++ toString n else toString n

/-- Store a new job and its settings entry for a chat:
`scheduler.add_job(send_scheduled_quote, trigger, args=[chat_id],
id=str(chat_id), replace_existing=True)` followed by
`schedule_settings[chat_id] = {'trigger': trigger, 'desc': desc}`. -/
def registerJob (s : BotState) (chat : Int) (trigger : CronTrigger)
    (desc : String) : BotState :=
  { s with
      jobs := add_job_replace s.jobs ⟨toString chat, chat, trigger⟩
      schedule_settings := updateMap s.schedule_settings chat ⟨trigger, desc⟩ }

/-- Update one user's dialog data. -/
def setUserData (s : BotState) (chat : Int) (f : DialogData → DialogData) :
    BotState :=
  { s with user_data := fun c => if c = chat then f (s.user_data c) else s.user_data c }

/-- The `/schedule` entry point: reply and enter state 1, or end immediately
outside the designated group. -/
def schedule (s : BotState) (chat : Int) : BotState × ConvResult × List String :=
  if chat ≠ GROUP_CHAT_ID then
    (s, .end_conv, ["Use this bot in the designated group."])
  else
    (s, .state 1, ["Send the time for the quote (24h format, e.g. 14:30):"])

/-- `hour, minute = map(int, text.split(":"))`: exactly two colon-separated
integer fields, else the `ValueError` the handler catches. -/
def parse_time_text (text : String) : Option (Int × Int) :=
  match pySplit text ':' with
  | [h, m] =>
      match pyInt h, pyInt m with
      | some hour, some minute => some (hour, minute)
      | _, _ => none
  | _ => none

/-- `schedule_time` (state 1): parse `HH:MM`, validate the ranges, store the
time and advance to state 2; any failure is caught and re-prompts in state 1. -/
def schedule_time (s : BotState) (chat : Int) (text : String) :
    BotState × ConvResult × List String :=
  match parse_time_text (pyStrip text) with
  | some (hour, minute) =>
      if 0 ≤ hour ∧ hour < 24 ∧ 0 ≤ minute ∧ minute < 60 then
        (setUserData s chat (fun d => { d with schedule_time := some (hour, minute) }),
         .state 2,
         ["How often? Reply with one of: daily, weekly, monthly, specific-days (comma-separated, e.g. mon,wed,fri)"])
      else
        (s, .state 1, ["Invalid time format. Please use HH:MM (24h). Try again:"])
  | none =>
      (s, .state 1, ["Invalid time format. Please use HH:MM (24h). Try again:"])

/-- What `confirm_schedule` did: returned a value (its Python return value:
`None`, `3`, `4` or `ConversationHandler.END = -1`) with its replies, or
raised. The mutated state accompanies either alternative, since a raise can
happen after the job removal. -/
inductive ConfirmOutcome where
  | ret (v : Option Int) (replies : List String)
  | raised
deriving DecidableEq, Repr

/-- `confirm_schedule`: read the collected time/frequency/days, remove the
chat's previous job when `schedule_settings` has an entry, then build the
trigger and register the job for `daily`/`specific-days`; for `weekly` and
`monthly` it only asks the extra question and returns `3`/`4`; an
unrecognized frequency replies with an error and returns `END`. -/
def confirm_schedule (s : BotState) (chat : Int) : BotState × ConfirmOutcome :=
  match (s.user_data chat).schedule_time with
  | none => (s, .raised)
  | some (hour, minute) =>
    match (s.user_data chat).schedule_freq with
    | none => (s, .raised)
    | some freq =>
      let days := (s.user_data chat).schedule_days
      match (if (s.schedule_settings chat).isSome
             then remove_job s.jobs (toString chat)
             else .ok s.jobs) with
      | .error _ => (s, .raised)
      | .ok jobs1 =>
        let s1 := { s with jobs := jobs1 }
        if freq = "daily" then
          match mkCronDaily hour minute with
          | .error _ => (s1, .raised)
          | .ok trigger =>
              let desc := "every day at " ++ fmt2 hour ++ ":" ++ fmt2 minute
              (registerJob s1 chat trigger desc,
               .ret none ["Scheduled quote " ++ desc ++ "."])
        else if freq = "weekly" then
          (s1, .ret (some 3) ["Which day of week? (e.g. mon, tue, ...)"])
        else if freq = "monthly" then
          (s1, .ret (some 4) ["Which day of month? (1-31)"])
        else if freq = "specific-days" then
          match days with
          | none => (s1, .raised)
          | some ds =>
              let dow := String.intercalate "," ds
              match mkCronDow dow hour minute with
              | .error _ => (s1, .raised)
              | .ok trigger =>
                  let desc := "on " ++ dow ++ " at " ++ fmt2 hour ++ ":" ++ fmt2 minute
                  (registerJob s1 chat trigger desc,
                   .ret none ["Scheduled quote " ++ desc ++ "."])
        else
          (s1, .ret (some (-1))
            ["Invalid frequency. Use: daily, weekly, monthly, specific-days."])

/-- `schedule_freq` (state 2): store the lowercased frequency; `specific-days`
asks for the days and moves to state 3; every other input runs
`confirm_schedule`, DISCARDS its return value, and returns `END`. -/
def schedule_freq (s : BotState) (chat : Int) (text : String) :
    BotState × ConvResult × List String :=
  let freq := pyLower (pyStrip text)
  let s1 := setUserData s chat (fun d => { d with schedule_freq := some freq })
  if freq = "specific-days" then
    (s1, .state 3, ["Enter days (comma-separated, e.g. mon,wed,fri):"])
  else
    match confirm_schedule s1 chat with
    | (s2, .ret _ replies) => (s2, .end_conv, replies)
    | (s2, .raised) => (s2, .raised, [])

/-- `schedule_days`: parses the comma-separated day list and runs
`confirm_schedule`. (Present in the source but never registered with the
`ConversationHandler` — state 3 is handled by `schedule_weekly` instead.) -/
def schedule_days (s : BotState) (chat : Int) (text : String) :
    BotState × ConvResult × List String :=
  let days := (pySplit text ',').map (fun d => (pyLower (pyStrip d)).take 3)
  let s1 := setUserData s chat (fun d => { d with schedule_days := some days })
  match confirm_schedule s1 chat with
  | (s2, .ret _ replies) => (s2, .end_conv, replies)
  | (s2, .raised) => (s2, .raised, [])

/-- `schedule_weekly` (state 3): takes the first three lowercased characters
as the weekday, builds the trigger (raising on an invalid weekday or missing
stored time) and registers the job. No input validation of its own. -/
def schedule_weekly (s : BotState) (chat : Int) (text : String) :
    BotState × ConvResult × List String :=
  let day := (pyLower (pyStrip text)).take 3
  match (s.user_data chat).schedule_time with
  | none => (s, .raised, [])
  | some (hour, minute) =>
    match mkCronDow day hour minute with
    | .error _ => (s, .raised, [])
    | .ok trigger =>
        let desc := "every " ++ day ++ " at " ++ fmt2 hour ++ ":" ++ fmt2 minute
        (registerJob s chat trigger desc, .end_conv,
         ["Scheduled quote " ++ desc ++ "."])

/-- `schedule_monthly` (state 4): `int(text.strip())` (raising on
non-integer input), then builds the day-of-month trigger (raising when out
of range) and registers the job. No input validation of its own. -/
def schedule_monthly (s : BotState) (chat : Int) (text : String) :
    BotState × ConvResult × List String :=
  match pyInt text with
  | none => (s, .raised, [])
  | some day =>
    match (s.user_data chat).schedule_time with
    | none => (s, .raised, [])
    | some (hour, minute) =>
      match mkCronDay day hour minute with
      | .error _ => (s, .raised, [])
      | .ok trigger =>
          let desc := "on day " ++ toString day ++ " of each month at "
            ++ fmt2 hour ++ ":" ++ fmt2 minute
          (registerJob s chat trigger desc, .end_conv,
           ["Scheduled quote " ++ desc ++ "."])

/-! ## The event loop -/

/-- One external event the application reacts to. Network outcomes
(`SendOutcome`) are inputs, since they are decided by the platform. -/
inductive Event where
  | start_cmd (chat : Int)
  | stop_cmd (chat : Int)
  | help_cmd (chat : Int)
  | new_cmd (chat : Int) (send : SendOutcome)
  | sched_fire (chat : Int) (send : SendOutcome)
  | press (user_id chat : Int) (msg_id : Nat)
  | schedule_cmd (chat : Int)
  | dialog_msg (chat : Int) (text : String)

/-- Record a conversation callback's result: a returned state number is
stored, `END` clears the conversation, and a raise keeps the old state. -/
def apply_conv (s : BotState) (chat : Int) (r : ConvResult) : BotState :=
  match r with
  | .state n => { s with conv_state := updateMap s.conv_state chat n }
  | .end_conv => { s with conv_state := eraseMap s.conv_state chat }
  | .raised => s

/-- Dispatch a plain text message to the active dialog state's callback
(the `states` table of the `ConversationHandler`); `none` when no dialog is
active for the chat. -/
def dialog_dispatch (s : BotState) (chat : Int) (text : String) :
    Option (BotState × ConvResult × List String) :=
  match s.conv_state chat with
  | none => none
  | some n =>
      if n = 1 then some (schedule_time s chat text)
      else if n = 2 then some (schedule_freq s chat text)
      else if n = 3 then some (schedule_weekly s chat text)
      else if n = 4 then some (schedule_monthly s chat text)
      else none

/-- The state transition for one event. -/
def applyEvent (s : BotState) (e : Event) : BotState :=
  match e with
  | .start_cmd chat => (start s chat).1
  | .stop_cmd chat => (stop s chat).1
  | .help_cmd _ => s
  | .new_cmd chat send => (new_quote s chat send).1
  | .sched_fire chat send => (send_scheduled_quote s chat send).1
  | .press user_id chat msg_id => (handle_heart_reaction s user_id chat msg_id).1
  | .schedule_cmd chat =>
      match s.conv_state chat with
      | some _ => s
      | none =>
          let (s1, r, _) := schedule s chat
          apply_conv s1 chat r
  | .dialog_msg chat text =>
      match dialog_dispatch s chat text with
      | none => s
      | some (s1, r, _) => apply_conv s1 chat r

/-- The states the process can be in: the initial state and everything
obtained by handling events. -/
inductive Reachable : BotState → Prop where
  | init : Reachable initState
  | step {s : BotState} (e : Event) : Reachable s → Reachable (applyEvent s e)

/-- The job-store discipline every registration site follows: job ids are
unique (APScheduler replaces under the same id) and every job's id is
`str(chat_id)` of the chat it posts to. -/
def JobsInv (jobs : List Job) : Prop :=
  (jobs.map Job.id).Nodup ∧ ∀ j ∈ jobs, j.id = toString j.chat

/-- The invariant maintained by every event handler: the session dict is
never populated (no handler writes it) and the job store keeps its
one-id-per-chat discipline. -/
def StateInv (s : BotState) : Prop :=
  (∀ chat, s.user_sessions chat = none) ∧ JobsInv s.jobs

/-! ## Theorems -/

/-- C1: For every chat, when a new quote is about to be posted (scheduled
firing or `/new`), the cleanup action on the chat's ActiveMessage is
determined solely by its saved flag: a record with `saved = true` yields
stripping the button from that message (never deletion), a record with
`saved = false` yields deleting that message, and no record yields no
cleanup; the `/new` path computes the same `cleanup_action`. -/
theorem C1_cleanup_determined_by_saved_flag (s : BotState) (chat : Int)
    (send : SendOutcome) :
    (s.last_message_info chat = none →
        (send_scheduled_quote s chat send).2 = CleanupAction.noop)
    ∧ (∀ m : ActiveMessage, s.last_message_info chat = some m →
        m.has_reaction = true →
        (send_scheduled_quote s chat send).2 = CleanupAction.stripButton m.message_id)
    ∧ (∀ m : ActiveMessage, s.last_message_info chat = some m →
        m.has_reaction = false →
        (send_scheduled_quote s chat send).2 = CleanupAction.deleteMsg m.message_id)
    ∧ (chat = GROUP_CHAT_ID →
        (new_quote s chat send).2 = some (cleanup_action (s.last_message_info chat))) := by
  have hact : (send_scheduled_quote s chat send).2
      = cleanup_action (s.last_message_info chat) := by
    cases send <;> rfl
  refine ⟨fun h => ?_, fun m h hm => ?_, fun m h hm => ?_, fun h => ?_⟩
  · rw [hact, h]; rfl
  · rw [hact, h]; simp [cleanup_action, hm]
  · rw [hact, h]; simp [cleanup_action, hm]
  · subst h
    cases send <;> simp [new_quote]

/-- Witness for C1 at concrete states: a saved record is stripped, an
unsaved one deleted, a missing one untouched, and `/new` in the designated
group takes the same action. -/
theorem C1_witness :
    (send_scheduled_quote
        { initState with last_message_info := updateMap emptyMap 5 ⟨10, true⟩ }
        5 SendOutcome.failed).2 = CleanupAction.stripButton 10
    ∧ (send_scheduled_quote
        { initState with last_message_info := updateMap emptyMap 5 ⟨10, false⟩ }
        5 SendOutcome.failed).2 = CleanupAction.deleteMsg 10
    ∧ (send_scheduled_quote initState 5 SendOutcome.failed).2 = CleanupAction.noop
    ∧ (new_quote initState GROUP_CHAT_ID (SendOutcome.ok 3)).2 = some CleanupAction.noop := by
  refine ⟨?_, ?_, ?_, ?_⟩
  · exact (C1_cleanup_determined_by_saved_flag _ 5 .failed).2.1 ⟨10, true⟩ (by decide) rfl
  · exact (C1_cleanup_determined_by_saved_flag _ 5 .failed).2.2.1 ⟨10, false⟩ (by decide) rfl
  · exact (C1_cleanup_determined_by_saved_flag initState 5 .failed).1 rfl
  · exact (C1_cleanup_determined_by_saved_flag initState GROUP_CHAT_ID (.ok 3)).2.2.2 rfl

/-- C2: For every chat, a failed send leaves the whole state — in particular
the chat's previous ActiveMessage record — unchanged, so a later posting
cycle's cleanup computes the same action; a successful send overwrites the
record with the sent message id and `saved = false`. -/
theorem C2_record_only_after_successful_send (s : BotState) (chat : Int)
    (message_id : Nat) :
    (send_scheduled_quote s chat SendOutcome.failed).1 = s
    ∧ (new_quote s chat SendOutcome.failed).1 = s
    ∧ ((send_scheduled_quote s chat (SendOutcome.ok message_id)).1).last_message_info chat
        = some ⟨message_id, false⟩
    ∧ (chat = GROUP_CHAT_ID →
        ((new_quote s chat (SendOutcome.ok message_id)).1).last_message_info chat
          = some ⟨message_id, false⟩)
    ∧ (∀ send2 : SendOutcome,
        (send_scheduled_quote (send_scheduled_quote s chat SendOutcome.failed).1
            chat send2).2
          = (send_scheduled_quote s chat send2).2) := by
  refine ⟨rfl, ?_, ?_, fun h => ?_, fun send2 => rfl⟩
  · unfold new_quote
    split <;> rfl
  · simp [send_scheduled_quote, updateMap]
  · subst h
    simp [new_quote, updateMap]

/-- Witness for C2: with a prior record present, a failed send keeps it and a
successful `/new` overwrites it. -/
theorem C2_witness :
    ((new_quote
        { initState with last_message_info := updateMap emptyMap GROUP_CHAT_ID ⟨10, true⟩ }
        GROUP_CHAT_ID (SendOutcome.ok 42)).1).last_message_info GROUP_CHAT_ID
      = some ⟨42, false⟩ := by
  exact (C2_record_only_after_successful_send _ GROUP_CHAT_ID 42).2.2.2.1 rfl

/-- C3: toggling save twice in succession on a chat's current ActiveMessage
(authorized presses carrying the record's message id) restores the record to
its original value, and the label emitted by the second press is the one that
displays the original saved state (`unsave_label` for a saved record,
`save_label` for an unsaved one) — the originally displayed label. -/
theorem C3_double_toggle_roundtrip (s : BotState) (user_id chat : Int)
    (m : ActiveMessage) (hu : user_id ∈ ALLOWED_USER_IDS)
    (hm : s.last_message_info chat = some m) :
    ((handle_heart_reaction (handle_heart_reaction s user_id chat m.message_id).1
        user_id chat m.message_id).1).last_message_info chat = some m
    ∧ (handle_heart_reaction (handle_heart_reaction s user_id chat m.message_id).1
        user_id chat m.message_id).2
      = PressOutcome.toggled m.has_reaction
          (if m.has_reaction then unsave_label else save_label)
          (if m.has_reaction then saved_notice else removed_notice) := by
  obtain ⟨mid, b⟩ := m
  cases b <;>
    simp [handle_heart_reaction, hu, hm, updateMap]

/-- Witness for C3: a fresh unsaved record toggled twice by the allowed user
comes back unsaved with the `SAVE` label. -/
theorem C3_witness :
    ((handle_heart_reaction
        (handle_heart_reaction
          { initState with last_message_info := updateMap emptyMap 5 ⟨10, false⟩ }
          1861017597 5 10).1
        1861017597 5 10).1).last_message_info 5 = some ⟨10, false⟩
    ∧ (handle_heart_reaction
        (handle_heart_reaction
          { initState with last_message_info := updateMap emptyMap 5 ⟨10, false⟩ }
          1861017597 5 10).1
        1861017597 5 10).2
      = PressOutcome.toggled false save_label removed_notice := by
  have h := C3_double_toggle_roundtrip
    { initState with last_message_info := updateMap emptyMap 5 ⟨10, false⟩ }
    1861017597 5 ⟨10, false⟩ (by decide) (by decide)
  exact ⟨h.1, h.2⟩

/-- C4 counterexample: the confirmation notice after an authorized press is
not the bare text "Saved!" (resp. "Removed!") — the source's literals prefix
those texts with a (double-encoded) heart emoji: `saved_notice` and
`removed_notice`. -/
theorem C4_counterexample_notice_prefixed :
    (handle_heart_reaction initState 1861017597 5 10).2
      = PressOutcome.toggled true unsave_label saved_notice
    ∧ saved_notice ≠ "Saved!"
    ∧ removed_notice ≠ "Removed!" := by
  exact ⟨rfl, by decide, by decide⟩

/-- C4 (amended): a press by a user outside the allow-list yields the
visible "Permission denied." notice and leaves the state untouched; a press
by an allowed user flips the chat record's saved flag onto the referenced
message id, shows the label naming the next action (`unsave_label` when now
saved, `save_label` when not), and the confirmation notice matching the new
state — the source's literals `saved_notice` / `removed_notice`, which carry
the claimed "Saved!" / "Removed!" texts behind a mojibake heart-emoji
prefix. -/
theorem C4_press_authorization_and_toggle (s : BotState) (user_id chat : Int)
    (msg_id : Nat) :
    (user_id ∉ ALLOWED_USER_IDS →
        handle_heart_reaction s user_id chat msg_id
          = (s, PressOutcome.denied "Permission denied."))
    ∧ (user_id ∈ ALLOWED_USER_IDS →
        ∃ new_state : Bool,
          new_state = !(((s.last_message_info chat).map
            (fun i => i.has_reaction)).getD false)
          ∧ (handle_heart_reaction s user_id chat msg_id).1.last_message_info chat
              = some ⟨msg_id, new_state⟩
          ∧ (handle_heart_reaction s user_id chat msg_id).2
              = PressOutcome.toggled new_state
                  (if new_state then unsave_label else save_label)
                  (if new_state then saved_notice else removed_notice)) := by
  constructor
  · intro h
    simp [handle_heart_reaction, h]
  · intro h
    refine ⟨_, rfl, ?_, ?_⟩
    · simp [handle_heart_reaction, h, updateMap]
    · rcases hcur : ((s.last_message_info chat).map (fun i => i.has_reaction)).getD false with _ | _ <;>
        simp [handle_heart_reaction, h, hcur]

/-- Witness for C4: a stranger is denied on an untouched state; the allowed
user saves a fresh quote, sees the `UNSAVE` label and the saved notice. -/
theorem C4_witness :
    handle_heart_reaction initState 42 5 10
      = (initState, PressOutcome.denied "Permission denied.")
    ∧ ∃ new_state : Bool,
        new_state = !(((initState.last_message_info 5).map
          (fun i => i.has_reaction)).getD false)
        ∧ (handle_heart_reaction initState 1861017597 5 10).1.last_message_info 5
            = some ⟨10, new_state⟩
        ∧ (handle_heart_reaction initState 1861017597 5 10).2
            = PressOutcome.toggled new_state
                (if new_state then unsave_label else save_label)
                (if new_state then saved_notice else removed_notice) := by
  constructor
  · exact (C4_press_authorization_and_toggle initState 42 5 10).1 (by decide)
  · exact (C4_press_authorization_and_toggle initState 1861017597 5 10).2 (by decide)

/-- C8 counterexample: on a network/parsing exception `fetch_quote` does not
return the string "Failed to retrieve quote." — the fallback literal in the
source carries italic markers: "_Failed to retrieve quote._". -/
theorem C8_counterexample_exception_fallback :
    fetch_quote (fun _ => none) FetchOutcome.exn 0
        = "_Failed to retrieve quote._"
    ∧ fetch_quote (fun _ => none) FetchOutcome.exn 0
        ≠ "Failed to retrieve quote." := by
  exact ⟨rfl, by decide⟩

/-- C8 (amended): `fetch_quote` never raises (the embedding is total over
every external outcome) and returns a distinct fixed fallback per failure
mode: `"_No quotes found._"` for an empty 200 collection,
`"_Quote service unavailable._"` for a non-200 response, and
`"_Failed to retrieve quote._"` for any exception. -/
theorem C8_fallback_strings (cache : String → Option String) (choice : Nat)
    (status : Nat) (data : List QuoteItem) (hs : status ≠ 200) :
    fetch_quote cache (FetchOutcome.resp 200 []) choice = "_No quotes found._"
    ∧ fetch_quote cache (FetchOutcome.resp status data) choice
        = "_Quote service unavailable._"
    ∧ fetch_quote cache FetchOutcome.exn choice = "_Failed to retrieve quote._"
    ∧ ("_No quotes found._" : String) ≠ "_Quote service unavailable._"
    ∧ ("_No quotes found._" : String) ≠ "_Failed to retrieve quote._"
    ∧ ("_Quote service unavailable._" : String) ≠ "_Failed to retrieve quote._" := by
  refine ⟨rfl, ?_, rfl, by decide, by decide, by decide⟩
  simp [fetch_quote, hs]

/-- Witness for C8 at a concrete unavailable status. -/
theorem C8_witness :
    fetch_quote (fun _ => none) (FetchOutcome.resp 200 []) 7 = "_No quotes found._"
    ∧ fetch_quote (fun _ => none) (FetchOutcome.resp 503 [⟨some "x", none⟩]) 0
        = "_Quote service unavailable._"
    ∧ fetch_quote (fun _ => none) FetchOutcome.exn 0 = "_Failed to retrieve quote._" := by
  have h := C8_fallback_strings (fun _ => none) 0 503 [⟨some "x", none⟩] (by decide)
  exact ⟨(C8_fallback_strings (fun _ => none) 7 503 [] (by decide)).1, h.2.1, h.2.2.1⟩

/-- C9: evaluation at the claim's end-to-end input. The selection, trimming,
author resolution and layout behave as claimed, but the dash between the
blank line and the author is the three characters U+00E2 U+20AC U+201C (a
double-encoded en dash in the source file), so the posted text differs from
the claimed `_"Know thyself"_\n\n*–Socrates*` (en dash U+2013, as
`test_api.py` in the same repository prints it). -/
theorem C9_format_dash_corrupted :
    fetch_quote (fun i => if i = "7" then some "Socrates" else none)
        (FetchOutcome.resp 200 [⟨some "Know thyself", some "7"⟩]) 0
      = "_\"Know thyself\"_\n\n*â€“Socrates*"
    ∧ fetch_quote (fun i => if i = "7" then some "Socrates" else none)
        (FetchOutcome.resp 200 [⟨some "Know thyself", some "7"⟩]) 0
      ≠ "_\"Know thyself\"_\n\n*–Socrates*"
    ∧ fetch_quote (fun i => if i = "7" then some "Socrates" else none)
        (FetchOutcome.resp 200 [⟨some "  Know thyself ", some "7"⟩]) 0
      = "_\"Know thyself\"_\n\n*â€“Socrates*"
    ∧ fetch_quote (fun _ => none)
        (FetchOutcome.resp 200 [⟨some "Know thyself", some "7"⟩]) 0
      = "_\"Know thyself\"_\n\n*â€“Unknown*" := by
  exact ⟨rfl, by decide, rfl, rfl⟩

/-- C6: evaluation of the dialog at frequencies "weekly" and "monthly" after
a valid time. `confirm_schedule` asks the extra question and returns `3`
(resp. `4`) — the intended transition into the extra collecting state — but
`schedule_freq` discards that return value and returns `END`, so the
conversation ends, the weekday/day-of-month step never runs, and no trigger
is ever registered (even a subsequent weekday answer is ignored). -/
theorem C6_weekly_monthly_dialog_dies :
    (let s2 := applyEvent (applyEvent initState (Event.schedule_cmd GROUP_CHAT_ID))
        (Event.dialog_msg GROUP_CHAT_ID "14:30")
     s2.conv_state GROUP_CHAT_ID = some 2
     ∧ (confirm_schedule
          (setUserData s2 GROUP_CHAT_ID
            (fun d => { d with schedule_freq := some "weekly" }))
          GROUP_CHAT_ID).2
        = ConfirmOutcome.ret (some 3) ["Which day of week? (e.g. mon, tue, ...)"]
     ∧ (schedule_freq s2 GROUP_CHAT_ID "weekly").2.1 = ConvResult.end_conv
     ∧ (schedule_freq s2 GROUP_CHAT_ID "weekly").2.2
        = ["Which day of week? (e.g. mon, tue, ...)"]
     ∧ (let w := applyEvent s2 (Event.dialog_msg GROUP_CHAT_ID "weekly")
        w.conv_state GROUP_CHAT_ID = none
        ∧ w.jobs = []
        ∧ w.schedule_settings GROUP_CHAT_ID = none
        ∧ (applyEvent w (Event.dialog_msg GROUP_CHAT_ID "mon")).jobs = []))
    ∧ (let s2 := applyEvent (applyEvent initState (Event.schedule_cmd GROUP_CHAT_ID))
        (Event.dialog_msg GROUP_CHAT_ID "14:30")
       (confirm_schedule
          (setUserData s2 GROUP_CHAT_ID
            (fun d => { d with schedule_freq := some "monthly" }))
          GROUP_CHAT_ID).2
        = ConfirmOutcome.ret (some 4) ["Which day of month? (1-31)"]
       ∧ (schedule_freq s2 GROUP_CHAT_ID "monthly").2.1 = ConvResult.end_conv
       ∧ (let w := applyEvent s2 (Event.dialog_msg GROUP_CHAT_ID "monthly")
          w.conv_state GROUP_CHAT_ID = none
          ∧ w.jobs = []
          ∧ (applyEvent w (Event.dialog_msg GROUP_CHAT_ID "15")).jobs = [])) := by
  decide

/-- C7 counterexample: invalid input does not always re-prompt in place.
At the frequency step, "blah" ends the dialog (state back to NONE) instead of
staying in state 2; at the weekday step (reached via "specific-days"),
"xyzzy" makes the handler raise; at the day-of-month step, "abc" makes
`int()` raise. -/
theorem C7_counterexample_not_all_steps_reprompt :
    (let s2 := applyEvent (applyEvent initState (Event.schedule_cmd GROUP_CHAT_ID))
        (Event.dialog_msg GROUP_CHAT_ID "14:30")
     s2.conv_state GROUP_CHAT_ID = some 2
     ∧ (schedule_freq s2 GROUP_CHAT_ID "blah").2.1 = ConvResult.end_conv
     ∧ (applyEvent s2 (Event.dialog_msg GROUP_CHAT_ID "blah")).conv_state
        GROUP_CHAT_ID = none
     ∧ (let d3 := applyEvent s2 (Event.dialog_msg GROUP_CHAT_ID "specific-days")
        d3.conv_state GROUP_CHAT_ID = some 3
        ∧ (schedule_weekly d3 GROUP_CHAT_ID "xyzzy").2.1 = ConvResult.raised))
    ∧ (schedule_monthly initState GROUP_CHAT_ID "abc").2.1 = ConvResult.raised := by
  decide

/-- C7 (amended): only the time-collecting step re-prompts in place — any
input either advances to the frequency step or re-prompts in state 1 with
the state unchanged. The frequency step, on unrecognized input (with a time
stored and no prior schedule entry), replies with an error and ends the
dialog. The weekday and day-of-month steps never re-prompt: every input
either registers a schedule and ends the dialog, or raises past the handler
leaving the whole state unchanged (as the weekday "xyzzy" and the day "abc"
of the counterexample do). -/
theorem C7_per_step_invalid_input_behaviour (s : BotState) (chat : Int)
    (text : String) :
    ((schedule_time s chat text).2.1 = ConvResult.state 2
      ∨ schedule_time s chat text
          = (s, ConvResult.state 1,
             ["Invalid time format. Please use HH:MM (24h). Try again:"]))
    ∧ (pyLower (pyStrip text) ∉ ["daily", "weekly", "monthly", "specific-days"] →
        ((s.user_data chat).schedule_time).isSome = true →
        s.schedule_settings chat = none →
        (schedule_freq s chat text).2.1 = ConvResult.end_conv
        ∧ (schedule_freq s chat text).2.2
            = ["Invalid frequency. Use: daily, weekly, monthly, specific-days."]
        ∧ ((schedule_freq s chat text).1).jobs = s.jobs)
    ∧ ((schedule_weekly s chat text).2.1 = ConvResult.end_conv
        ∨ schedule_weekly s chat text = (s, ConvResult.raised, []))
    ∧ ((schedule_monthly s chat text).2.1 = ConvResult.end_conv
        ∨ schedule_monthly s chat text = (s, ConvResult.raised, [])) := by
  refine ⟨?_, ?_, ?_, ?_⟩
  · unfold schedule_time
    rcases parse_time_text (pyStrip text) with _ | ⟨hour, minute⟩
    · exact Or.inr rfl
    · by_cases h : 0 ≤ hour ∧ hour < 24 ∧ 0 ≤ minute ∧ minute < 60
      · exact Or.inl (by simp [h])
      · exact Or.inr (by simp [h])
  · intro hfreq htime hset
    obtain ⟨⟨hour, minute⟩, ht⟩ := Option.isSome_iff_exists.1 htime
    have h1 : pyLower (pyStrip text) ≠ "specific-days" := by
      intro h; exact hfreq (by simp [h])
    have h2 : pyLower (pyStrip text) ≠ "daily" := by
      intro h; exact hfreq (by simp [h])
    have h3 : pyLower (pyStrip text) ≠ "weekly" := by
      intro h; exact hfreq (by simp [h])
    have h4 : pyLower (pyStrip text) ≠ "monthly" := by
      intro h; exact hfreq (by simp [h])
    simp only [schedule_freq, h1, if_neg]
    simp [confirm_schedule, setUserData, ht, hset, h1, h2, h3, h4]
  · rcases ht : (s.user_data chat).schedule_time with _ | ⟨hour, minute⟩
    · exact Or.inr (by simp [schedule_weekly, ht])
    · rcases hmk : mkCronDow ((pyLower (pyStrip text)).take 3) hour minute with e | t
      · exact Or.inr (by simp [schedule_weekly, ht, hmk])
      · exact Or.inl (by simp [schedule_weekly, ht, hmk])
  · rcases hpi : pyInt text with _ | day
    · exact Or.inr (by simp [schedule_monthly, hpi])
    · rcases ht : (s.user_data chat).schedule_time with _ | ⟨hour, minute⟩
      · exact Or.inr (by simp [schedule_monthly, hpi, ht])
      · rcases hmk : mkCronDay day hour minute with e | t
        · exact Or.inr (by simp [schedule_monthly, hpi, ht, hmk])
        · exact Or.inl (by simp [schedule_monthly, hpi, ht, hmk])

/-- Witness for C7's amended statement: each step exercised at a concrete
invalid input. -/
theorem C7_witness :
    ((schedule_time initState 5 "nope").2.1 = ConvResult.state 2
      ∨ schedule_time initState 5 "nope"
          = (initState, ConvResult.state 1,
             ["Invalid time format. Please use HH:MM (24h). Try again:"]))
    ∧ (let s2 := applyEvent (applyEvent initState (Event.schedule_cmd GROUP_CHAT_ID))
        (Event.dialog_msg GROUP_CHAT_ID "14:30")
       (schedule_freq s2 GROUP_CHAT_ID "blah").2.1 = ConvResult.end_conv
       ∧ (schedule_freq s2 GROUP_CHAT_ID "blah").2.2
          = ["Invalid frequency. Use: daily, weekly, monthly, specific-days."]
       ∧ ((schedule_freq s2 GROUP_CHAT_ID "blah").1).jobs = s2.jobs)
    ∧ schedule_weekly initState 5 "xyzzy" = (initState, ConvResult.raised, [])
    ∧ schedule_monthly initState 5 "abc" = (initState, ConvResult.raised, []) := by
  refine ⟨?_, ⟨?_, ?_, ?_⟩, ?_, ?_⟩
  · exact (C7_per_step_invalid_input_behaviour initState 5 "nope").1
  · exact ((C7_per_step_invalid_input_behaviour _ GROUP_CHAT_ID "blah").2.1
      (by decide) (by decide) (by decide)).1
  · exact ((C7_per_step_invalid_input_behaviour _ GROUP_CHAT_ID "blah").2.1
      (by decide) (by decide) (by decide)).2.1
  · exact ((C7_per_step_invalid_input_behaviour _ GROUP_CHAT_ID "blah").2.1
      (by decide) (by decide) (by decide)).2.2
  · exact (C7_per_step_invalid_input_behaviour initState 5 "xyzzy").2.2.1.resolve_left
      (by decide)
  · exact (C7_per_step_invalid_input_behaviour initState 5 "abc").2.2.2.resolve_left
      (by decide)

/-- The empty store satisfies the discipline. -/
theorem jobsInv_nil : JobsInv [] := ⟨List.nodup_nil, by simp⟩

/-- Removing jobs preserves the discipline. -/
theorem jobsInv_filter {jobs : List Job} (h : JobsInv jobs) (p : Job → Bool) :
    JobsInv (jobs.filter p) := by
  constructor
  · exact h.1.sublist ((List.filter_sublist jobs).map Job.id)
  · intro j hj
    exact h.2 j (List.mem_of_mem_filter hj)

/-- Registering with `id=str(chat)` and `replace_existing=True` preserves the
discipline. -/
theorem jobsInv_add {jobs : List Job} (h : JobsInv jobs) (chat : Int)
    (t : CronTrigger) :
    JobsInv (add_job_replace jobs ⟨toString chat, chat, t⟩) := by
  have hf := jobsInv_filter h (fun x => x.id ≠ toString chat)
  constructor
  · rw [add_job_replace, List.map_append]
    refine List.Nodup.append hf.1 (by simp) ?_
    intro a ha hb
    simp only [List.map_cons, List.map_nil, List.mem_singleton] at hb
    subst hb
    simp only [List.mem_map, List.mem_filter, decide_eq_true_eq] at ha
    obtain ⟨x, ⟨_, hx⟩, hxa⟩ := ha
    exact hx hxa
  · intro x hx
    rcases List.mem_append.1 hx with hx | hx
    · exact h.2 x (List.mem_of_mem_filter hx)
    · simp only [List.mem_singleton] at hx
      subst hx
      rfl

/-- The discipline bounds the number of jobs per chat by one. -/
theorem jobsInv_count {jobs : List Job} (h : JobsInv jobs) (chat : Int) :
    (jobs.filter (fun j => j.chat = chat)).length ≤ 1 := by
  induction jobs with
  | nil => simp
  | cons j rest ih =>
    obtain ⟨hnd, hids⟩ := h
    rw [List.map_cons, List.nodup_cons] at hnd
    have hrest : JobsInv rest :=
      ⟨hnd.2, fun x hx => hids x (List.mem_cons_of_mem _ hx)⟩
    by_cases hc : j.chat = chat
    · have hempty : rest.filter (fun x => x.chat = chat) = [] := by
        rw [List.filter_eq_nil_iff]
        intro x hx hxc
        rw [decide_eq_true_eq] at hxc
        have hxid : x.id = toString chat := by
          rw [hids x (List.mem_cons_of_mem _ hx), hxc]
        have hjid : j.id = toString chat := by
          rw [hids j (List.mem_cons_self _ _), hc]
        exact hnd.1 (List.mem_map.2 ⟨x, hx, by rw [hxid, ← hjid]⟩)
      simp [List.filter_cons, hc, hempty]
    · simp only [List.filter_cons, decide_eq_true_eq, hc, if_false]
      exact ih hrest

/-- `confirm_schedule` preserves the invariant on every path (raise, removal
only, full registration). -/
theorem confirm_schedule_inv (s : BotState) (chat : Int) (h : StateInv s) :
    StateInv (confirm_schedule s chat).1 := by
  unfold confirm_schedule
  split
  · exact h
  split
  · exact h
  split
  · exact h
  next jobs1 heq =>
    have hj1 : JobsInv jobs1 := by
      split at heq
      · unfold remove_job at heq
        split at heq
        · injection heq with h'
          subst h'
          exact jobsInv_filter h.2 _
        · cases heq
      · injection heq with h'
        subst h'
        exact h.2
    dsimp only
    repeat' split
    all_goals
      first
        | exact ⟨h.1, hj1⟩
        | exact ⟨h.1, jobsInv_add hj1 chat _⟩

/-- `schedule_time` preserves the invariant. -/
theorem schedule_time_inv (s : BotState) (chat : Int) (text : String)
    (h : StateInv s) : StateInv (schedule_time s chat text).1 := by
  unfold schedule_time
  split
  · split
    · exact ⟨h.1, h.2⟩
    · exact h
  · exact h

/-- `schedule_freq` preserves the invariant. -/
theorem schedule_freq_inv (s : BotState) (chat : Int) (text : String)
    (h : StateInv s) : StateInv (schedule_freq s chat text).1 := by
  have h1 : StateInv (setUserData s chat
      (fun d => { d with schedule_freq := some (pyLower (pyStrip text)) })) :=
    ⟨h.1, h.2⟩
  unfold schedule_freq
  dsimp only
  split
  · exact h1
  · rcases hc : confirm_schedule (setUserData s chat
      (fun d => { d with schedule_freq := some (pyLower (pyStrip text)) })) chat
      with ⟨s2, o⟩
    have h2 : StateInv s2 := by
      have h3 := confirm_schedule_inv (setUserData s chat
        (fun d => { d with schedule_freq := some (pyLower (pyStrip text)) })) chat h1
      rwa [hc] at h3
    cases o <;> exact h2

/-- `schedule_weekly` preserves the invariant. -/
theorem schedule_weekly_inv (s : BotState) (chat : Int) (text : String)
    (h : StateInv s) : StateInv (schedule_weekly s chat text).1 := by
  unfold schedule_weekly
  dsimp only
  split
  · exact h
  split
  · exact h
  · exact ⟨h.1, jobsInv_add h.2 chat _⟩

/-- `schedule_monthly` preserves the invariant. -/
theorem schedule_monthly_inv (s : BotState) (chat : Int) (text : String)
    (h : StateInv s) : StateInv (schedule_monthly s chat text).1 := by
  unfold schedule_monthly
  dsimp only
  split
  · exact h
  split
  · exact h
  split
  · exact h
  · exact ⟨h.1, jobsInv_add h.2 chat _⟩

/-- Conversation bookkeeping preserves the invariant. -/
theorem apply_conv_inv (s : BotState) (chat : Int) (r : ConvResult)
    (h : StateInv s) : StateInv (apply_conv s chat r) := by
  cases r <;> exact ⟨h.1, h.2⟩

/-- The `/schedule` entry point replies without changing the state. -/
theorem schedule_state (s : BotState) (chat : Int) : (schedule s chat).1 = s := by
  unfold schedule
  split <;> rfl

/-- A successful dialog dispatch lands in a state satisfying the invariant. -/
theorem dialog_dispatch_inv (s s1 : BotState) (chat : Int) (text : String)
    (r : ConvResult) (rp : List String)
    (hd : dialog_dispatch s chat text = some (s1, r, rp)) (h : StateInv s) :
    StateInv s1 := by
  unfold dialog_dispatch at hd
  split at hd
  · cases hd
  · split_ifs at hd
    · have h2 := schedule_time_inv s chat text h
      rw [Option.some.inj hd] at h2
      exact h2
    · have h2 := schedule_freq_inv s chat text h
      rw [Option.some.inj hd] at h2
      exact h2
    · have h2 := schedule_weekly_inv s chat text h
      rw [Option.some.inj hd] at h2
      exact h2
    · have h2 := schedule_monthly_inv s chat text h
      rw [Option.some.inj hd] at h2
      exact h2

/-- Every event handler preserves the invariant. -/
theorem applyEvent_inv (s : BotState) (e : Event) (h : StateInv s) :
    StateInv (applyEvent s e) := by
  cases e with
  | start_cmd chat =>
      simp only [applyEvent]
      unfold start
      split <;> exact h
  | stop_cmd chat =>
      simp only [applyEvent]
      unfold stop
      rw [h.1 chat]
      exact h
  | help_cmd chat =>
      exact h
  | new_cmd chat send =>
      simp only [applyEvent]
      unfold new_quote
      split
      · exact h
      · cases send <;> exact ⟨h.1, h.2⟩
  | sched_fire chat send =>
      simp only [applyEvent]
      cases send <;> exact ⟨h.1, h.2⟩
  | press user_id chat msg_id =>
      simp only [applyEvent]
      unfold handle_heart_reaction
      split
      · exact ⟨h.1, h.2⟩
      · exact h
  | schedule_cmd chat =>
      simp only [applyEvent]
      rcases hc : s.conv_state chat with _ | n
      · dsimp only
        rcases hs : schedule s chat with ⟨s1, r, rp⟩
        dsimp only
        have h1 : s1 = s := by
          have h2 := schedule_state s chat
          rw [hs] at h2
          exact h2
        subst h1
        exact apply_conv_inv s1 chat r h
      · exact h
  | dialog_msg chat text =>
      simp only [applyEvent]
      rcases hd : dialog_dispatch s chat text with _ | ⟨s1, r, rp⟩
      · exact h
      · exact apply_conv_inv s1 chat r
          (dialog_dispatch_inv s s1 chat text r rp hd h)

/-- Every reachable state satisfies the invariant. -/
theorem reachable_inv {s : BotState} (h : Reachable s) : StateInv s := by
  induction h with
  | init => exact ⟨fun _ => rfl, jobsInv_nil⟩
  | step e _ ih => exact applyEvent_inv _ e ih

/-- C5: in every reachable state the scheduler holds at most one job per
chat, and every job sits under that chat's own job id `str(chat_id)` — so
each registration path (daily, specific-days, weekly, monthly) replaces the
chat's previous job rather than stacking a second timer. -/
theorem C5_at_most_one_job_per_chat (s : BotState) (h : Reachable s)
    (chat : Int) :
    ((s.jobs.filter (fun j => j.chat = chat)).length ≤ 1)
    ∧ ∀ j ∈ s.jobs, j.id = toString j.chat := by
  have hinv := reachable_inv h
  exact ⟨jobsInv_count hinv.2 chat, hinv.2.2⟩

/-- Witness for C5: scheduling daily at 14:30 and then re-running the dialog
to schedule daily at 09:15 leaves at most one job for the group chat. -/
theorem C5_witness :
    ((applyEvent (applyEvent (applyEvent (applyEvent (applyEvent (applyEvent
          initState
          (Event.schedule_cmd GROUP_CHAT_ID))
          (Event.dialog_msg GROUP_CHAT_ID "14:30"))
          (Event.dialog_msg GROUP_CHAT_ID "daily"))
          (Event.schedule_cmd GROUP_CHAT_ID))
          (Event.dialog_msg GROUP_CHAT_ID "09:15"))
          (Event.dialog_msg GROUP_CHAT_ID "daily")).jobs.filter
        (fun j => j.chat = GROUP_CHAT_ID)).length ≤ 1 :=
  (C5_at_most_one_job_per_chat _
    (Reachable.step _ (Reachable.step _ (Reachable.step _ (Reachable.step _
      (Reachable.step _ (Reachable.step _ Reachable.init))))))
    GROUP_CHAT_ID).1

/-- C10: in every reachable state the session dict is empty — no handler
ever inserts into `user_sessions` — so `/stop` always replies
"Bot is not running." and returns the state unchanged (records, schedule
settings and jobs included). -/
theorem C10_sessions_empty_stop_noop (s : BotState) (h : Reachable s) :
    (∀ chat, s.user_sessions chat = none)
    ∧ ∀ chat, stop s chat = (s, "Bot is not running.") := by
  have hs := (reachable_inv h).1
  refine ⟨hs, fun chat => ?_⟩
  unfold stop
  rw [hs chat]

/-- Witness for C10: right after `/start` has been handled, `/stop` still
replies "Bot is not running." and changes nothing. -/
theorem C10_witness :
    stop (applyEvent initState (Event.start_cmd GROUP_CHAT_ID)) GROUP_CHAT_ID
      = (applyEvent initState (Event.start_cmd GROUP_CHAT_ID),
         "Bot is not running.") :=
  (C10_sessions_empty_stop_noop _
    (Reachable.step _ Reachable.init)).2 GROUP_CHAT_ID

end QBot
